import Mathlib

/-
Verification of the MaMMUT model wrapper (`src/open_clip/mammut_model.py`) and
the profiling CLI (`src/open_clip_train/profiler_simple.py`).

The numerical work of the program is delegated to an external tensor framework
and to transformer tower modules defined outside the two embedded files.  We
therefore embed tensors *symbolically*: a `Tensor` is a syntax tree recording
exactly which framework operations the embedded code applied, with one
uninterpreted constructor per external operation (`mean(1)`, `F.normalize`,
`@`, slicing, the tower calls).  Python's `None`, which flows through the same
variables as tensors, is the distinguished value `Tensor.pynone`.

Stateful constructs are embedded by explicit state passing: Python dicts
become association lists with Python's replace-or-append update, attribute
assignment order in `__init__` becomes a sequenced `Except` computation, and
the profiler's `while retries:` loop becomes structural recursion on the
`retries` counter.
-/

/-- Python exceptions that the embedded code can raise or catch. -/
inductive PyExn where
  | runtimeError (msg : String)
  | assertionError (msg : String)
  | indexError
  | attributeError (name : String)
  deriving DecidableEq, Repr

/-- Symbolic tensor values.  Each constructor is an uninterpreted record of an
external framework operation as invoked by `mammut_model.py`; `pynone` is the
Python value `None`, which shares variables with tensors in the source. -/
inductive Tensor where
  | pynone
  | param (name : String)
  | input (id : Nat)
  | visualPooled (image : Tensor)
  | visualEmbs (image : Tensor)
  | tokenLogits (text_embs : Tensor) (image_embs : Tensor)
  | textLatent (text_embs : Tensor) (image_embs : Tensor)
  | mean1 (t : Tensor)
  | l2normalize (t : Tensor)
  | matmul (a b : Tensor)
  | dropFirstCol (t : Tensor)
  | dropLastCol (t : Tensor)
  | exp (t : Tensor)
  deriving DecidableEq, Repr

/-- Test for the Python value `None` (`x is None`). -/
def Tensor.isNone : Tensor → Bool
  | Tensor.pynone => true
  | _ => false

/-- A Python dict with string keys and tensor-or-None values, as an
insertion-ordered association list. -/
abbrev Out := List (String × Tensor)

/-- Python dict assignment `d[k] = v`: replace the value in place when the key
exists, otherwise append the new key at the end. -/
def setKey : Out → String → Tensor → Out
  | [], k, v => [(k, v)]
  | (k', v') :: rest, k, v =>
      if k' = k then (k', v) :: rest else (k', v') :: setKey rest k v

/-- Python dict lookup `d[k]`, as an `Option` (`none` when the key is absent). -/
def lookupKey : Out → String → Option Tensor
  | [], _ => none
  | (k', v') :: rest, k => if k' = k then some v' else lookupKey rest k

/-- The key list of a dict, in insertion order (`d.keys()`). -/
def keysOf (d : Out) : List String := d.map Prod.fst

/-- Activation layer selected by `quick_gelu` in the tower builders. -/
inductive ActLayer where
  | quickGELU
  | gelu
  deriving DecidableEq, Repr

/-- Normalisation layer selected by `cast_dtype` in the tower builders. -/
inductive NormLayer where
  | layerNormFp32
  | layerNorm
  deriving DecidableEq, Repr

/-- Tensor dtypes that `cast_dtype` can take. -/
inductive DType where
  | float16
  | bfloat16
  | float32
  deriving DecidableEq, Repr

/-- Configuration of the multimodal text decoder (`MultimodalCfg`), restricted
to the fields that `mammut_model.py` reads.  The class itself is defined in
`coca_model.py`, outside the embedded files. -/
structure MultimodalCfg where
  context_length : Nat
  width : Nat
  heads : Nat
  layers : Nat
  ls_init_value : Option Rat
  cross_attn_ratio : Nat
  does_full_decoding : Bool
  output_tokens : Bool
  has_mlp : Bool
  vocab_size : Nat
  hf_model_name : Option String
  deriving DecidableEq, Repr

/-- Vision tower configuration (`CLIPVisionCfg`), restricted to the fields
that `mammut_model.py` reads (`width` feeds `map_viz2txt_kv`). -/
structure CLIPVisionCfg where
  width : Nat
  image_size : Nat
  deriving DecidableEq, Repr

/-- The multimodal transformer decoder returned by
`_build_multimodal_decoder_tower`, recorded by its construction arguments.
Its forward computation is external and appears symbolically through the
`Tensor.tokenLogits` / `Tensor.textLatent` constructors. -/
structure MultimodalTransformer where
  context_length : Nat
  width : Nat
  heads : Nat
  layers : Nat
  ls_init_value : Option Rat
  cross_attn_ratio : Nat
  does_full_decoding : Bool
  output_tokens : Bool
  has_mlp : Bool
  output_dim : Nat
  act_layer : ActLayer
  norm_layer : NormLayer
  deriving DecidableEq, Repr

/-- A `MultimodalTransformer` defines no `config` attribute, so the Python
expression `tower.config.vocab_size` raises `AttributeError` when evaluated on
one.  Inside `MaMMUT.__init__` this read is unreachable: the preceding
`self.text` read fails first. -/
def MultimodalTransformer.config_vocab_size (_t : MultimodalTransformer) :
    Except PyExn Nat :=
  Except.error (PyExn.attributeError "config")

/-- Embedding of `_build_multimodal_decoder_tower`: constructs the decoder
from the config, choosing the activation by `quick_gelu` and the norm layer by
`cast_dtype`. -/
def _build_multimodal_decoder_tower (embed_dim : Nat) (multimodal_cfg : MultimodalCfg)
    (quick_gelu : Bool) (cast_dtype : Option DType) : MultimodalTransformer :=
  { context_length := multimodal_cfg.context_length
    width := multimodal_cfg.width
    heads := multimodal_cfg.heads
    layers := multimodal_cfg.layers
    ls_init_value := multimodal_cfg.ls_init_value
    cross_attn_ratio := MultimodalCfg.cross_attn_ratio multimodal_cfg
    does_full_decoding := multimodal_cfg.does_full_decoding
    output_tokens := multimodal_cfg.output_tokens
    has_mlp := multimodal_cfg.has_mlp
    output_dim := embed_dim
    act_layer := if quick_gelu then ActLayer.quickGELU else ActLayer.gelu
    norm_layer :=
      if cast_dtype = some DType.float16 ∨ cast_dtype = some DType.bfloat16 then
        NormLayer.layerNormFp32
      else NormLayer.layerNorm }

/-- The vision tower returned by `_build_vision_tower` (defined in `model.py`,
outside the embedded files), recorded by its construction arguments; its
forward computation appears symbolically through `Tensor.visualPooled` and
`Tensor.visualEmbs`. -/
structure VisionTower where
  embed_dim : Nat
  cfg : CLIPVisionCfg
  quick_gelu : Bool
  deriving DecidableEq, Repr

/-- Embedding of the `_build_vision_tower` call made by `MaMMUT.__init__`. -/
def _build_vision_tower (embed_dim : Nat) (vision_cfg : CLIPVisionCfg)
    (quick_gelu : Bool) (_cast_dtype : Option DType) : VisionTower :=
  { embed_dim := embed_dim, cfg := vision_cfg, quick_gelu := quick_gelu }

/-- Names of the learnable parameters whose `requires_grad` flag
`MaMMUT._use_contrastive` manipulates, plus an `other` family standing for
every remaining parameter of the module tree. -/
inductive ParamName where
  | textLnFinalWeight
  | textLnFinalBias
  | visualProj
  | visualLnPostWeight
  | visualLnPostBias
  | logitScale
  | other (n : Nat)
  deriving DecidableEq, Repr

/-- The `MaMMUT` module state: the attributes assigned by `__init__` together
with the `requires_grad` flag of every parameter. -/
structure MaMMUT where
  text : MultimodalTransformer
  visual : VisionTower
  context_length : Nat
  map_viz2txt_kv : Tensor
  logit_scale : Tensor
  logit_bias : Option Tensor
  pad_id : Nat
  use_contrastive : Bool
  requires_grad : ParamName → Bool

/-- Embedding of `MaMMUT.__init__`.  Statements are sequenced exactly as in
the source; reading an instance attribute that has not been assigned yet
raises `AttributeError` (the `nn.Module` attribute protocol).  The numeric
initialisation of `map_viz2txt_kv` (`torch.randn`), `logit_scale`
(`ones * init_logit_scale`) and `logit_bias` (`ones * init_logit_bias`) is
abstracted to symbolic parameter tensors. -/
def MaMMUT.init (embed_dim : Nat) (text_cfg : MultimodalCfg)
    (vision_cfg : CLIPVisionCfg) (quick_gelu : Bool) (cast_dtype : Option DType)
    (pad_id : Nat) (init_logit_bias : Option Rat)
    (_nonscalar_logit_scale : Bool) : Except PyExn MaMMUT := do
  -- after `super().__init__()` no instance attribute of this class exists yet;
  -- in particular `self.text` is only assigned by the *later* statement
  -- `self.text = _build_multimodal_decoder_tower(...)`.
  let text_attr : Option MultimodalTransformer := none
  let vocab_size ←
    if (text_cfg.hf_model_name).isSome then
      -- `self.text.config.vocab_size  # for hf models`
      match text_attr with
      | some tower => MultimodalTransformer.config_vocab_size tower
      | none => Except.error (PyExn.attributeError "text")
    else pure text_cfg.vocab_size
  let text := _build_multimodal_decoder_tower vocab_size text_cfg quick_gelu cast_dtype
  let visual := _build_vision_tower embed_dim vision_cfg quick_gelu cast_dtype
  pure
    { text := text
      visual := visual
      context_length := text_cfg.context_length
      map_viz2txt_kv := Tensor.param "map_viz2txt_kv"
      logit_scale := Tensor.param "logit_scale"
      logit_bias :=
        if init_logit_bias.isSome then some (Tensor.param "logit_bias") else none
      pad_id := pad_id
      use_contrastive := true
      requires_grad := fun _ => true }

/-- Embedding of `MaMMUT._encode_text`: one call to the decoder tower
`self.text(text_embs=text, image_embs=image_embs)`, returning the pair
`(token_logits, text_latent)`. -/
def MaMMUT._encode_text (_m : MaMMUT) (text : Tensor) (image_embs : Tensor) :
    Tensor × Tensor :=
  (Tensor.tokenLogits text image_embs, Tensor.textLatent text image_embs)

/-- Embedding of `MaMMUT.encode_text`.  Source defaults: `image_embs=None`,
`normalize=True`, `output_logits=False`; call sites below pass every argument
explicitly. -/
def MaMMUT.encode_text (m : MaMMUT) (text : Tensor) (image_embs : Tensor)
    (normalize : Bool) (output_logits : Bool) : Tensor :=
  let p := m._encode_text text image_embs
  let token_logits := p.1
  let text_latent := p.2
  if output_logits then token_logits
  else
    let text_latent := Tensor.mean1 text_latent
    if normalize then Tensor.l2normalize text_latent else text_latent

/-- Embedding of `MaMMUT._encode_image`: one call to the vision tower
returning `(image_latent, image_embs)`, with the latent L2-normalised when
`normalize` is set. -/
def MaMMUT._encode_image (_m : MaMMUT) (image : Tensor) (normalize : Bool) :
    Tensor × Tensor :=
  let image_latent := Tensor.visualPooled image
  let image_embs := Tensor.visualEmbs image
  let image_latent :=
    if normalize then Tensor.l2normalize image_latent else image_latent
  (image_latent, image_embs)

/-- Embedding of `MaMMUT.encode_image` (source default `normalize=True`). -/
def MaMMUT.encode_image (m : MaMMUT) (image : Tensor) (normalize : Bool) : Tensor :=
  (m._encode_image image normalize).1

/-- Single `requires_grad` assignment on a named parameter. -/
def MaMMUT.setGrad (m : MaMMUT) (p : ParamName) (b : Bool) : MaMMUT :=
  { m with requires_grad := fun q => if q = p then b else m.requires_grad q }

/-- Embedding of `MaMMUT._use_contrastive`: store the flag, and when the flag
is `False` freeze the contrastive-head parameters in source order
(`text.ln_final.bias`, `text.ln_final.weight`, `visual.proj`,
`visual.ln_post.bias`, `visual.ln_post.weight`, `logit_scale`). -/
def MaMMUT._use_contrastive (m : MaMMUT) (used : Bool) : MaMMUT :=
  let m := { m with use_contrastive := used }
  if !used then
    let m := m.setGrad ParamName.textLnFinalBias false
    let m := m.setGrad ParamName.textLnFinalWeight false
    let m := m.setGrad ParamName.visualProj false
    let m := m.setGrad ParamName.visualLnPostBias false
    let m := m.setGrad ParamName.visualLnPostWeight false
    let m := m.setGrad ParamName.logitScale false
    m
  else m

/-- Embedding of `MaMMUT._forward`.  Source defaults: `image_embs=None`,
`contrastive=True`, `is_training=True`; call sites pass every argument
explicitly. -/
def MaMMUT._forward (m : MaMMUT) (text : Tensor) (out : Out)
    (image_embs : Tensor) (contrastive : Bool) (is_training : Bool) : Out :=
  if contrastive then
    let text_features := m.encode_text text Tensor.pynone true false
    setKey out "text_features" text_features
  else
    -- adjust image output size for cross_attn
    let image_embs :=
      if !image_embs.isNone then Tensor.matmul image_embs m.map_viz2txt_kv
      else image_embs
    let out := setKey out "labels" (Tensor.dropFirstCol text)  -- shift labels
    -- drop last tok because it has no label
    let text := if is_training then Tensor.dropLastCol text else text
    setKey out "logits" (m.encode_text text image_embs true true)

/-- Embedding of `MaMMUT.forward`.  Source defaults: `image=None`,
`text=None`, `image_latent=None`, `image_embs=None`, `is_training=True`;
Python `None` is `Tensor.pynone`.  The first, contrastive `_forward` call
passes only `text` and `out`, so it runs with the source defaults
`image_embs=None`, `contrastive=True`, `is_training=True`. -/
def MaMMUT.forward (m : MaMMUT) (image : Tensor) (text : Tensor)
    (image_latent : Tensor) (image_embs : Tensor) (is_training : Bool) : Out :=
  let out : Out := [("logit_scale", Tensor.exp m.logit_scale)]
  let p :=
    if (image_latent.isNone || image_embs.isNone) && !image.isNone then
      m._encode_image image true
    else (image_latent, image_embs)
  let image_latent := p.1
  let image_embs := p.2
  let out := setKey out "image_features" image_latent
  if text.isNone then out
  else
    let out :=
      if is_training && m.use_contrastive then
        m._forward text out Tensor.pynone true true
      else setKey out "text_features" Tensor.pynone
    m._forward text out image_embs false is_training

/-- Devices a model can live on in the profiler. -/
inductive Device where
  | cuda
  | cpu
  deriving DecidableEq, Repr

/-- Python's `round` to even at a tie, on rationals. -/
def roundHalfEven (q : Rat) : Int :=
  let f : Int := ⌊q⌋
  let frac : Rat := q - (f : Rat)
  if frac < 1 / 2 then f
  else if 1 / 2 < frac then f + 1
  else if f % 2 = 0 then f else f + 1

/-- Python's `round(q, 2)`: round to two decimal places, ties to even. -/
def round2 (q : Rat) : Rat := ((roundHalfEven (q * 100) : Int) : Rat) / 100

/-- A framework parameter tensor, recorded by its element count (`numel`). -/
structure PParam where
  numel : Nat
  deriving DecidableEq, Repr

/-- Embedding of `count_params`: the sum of element counts over a parameter
list. -/
def count_params (ps : List PParam) : Nat :=
  (ps.map fun m => m.numel).sum

/-- The parameters of a profiled model, split into the `visual` submodule, the
`text` submodule, and the remaining parameters of the module tree. -/
structure PModel where
  visual : List PParam
  text : List PParam
  rest : List PParam
  deriving DecidableEq, Repr

/-- `model.parameters()`: all parameters of the module tree. -/
def PModel.parameters (m : PModel) : List PParam :=
  m.visual ++ m.text ++ m.rest

/-- The row dict built by `profile_model`; keys are set progressively, so
every measured field is optional. -/
structure ResultsRow where
  model : String
  image_size : Nat
  mparams : Option Rat
  image_mparams : Option Rat
  text_mparams : Option Rat
  gmacs : Option Rat
  macts : Option Rat
  gflops : Option Rat
  deriving DecidableEq, Repr

/-- Environment of one `profile_model` call: availability flags and, for each
device, the totals reported by the external FLOP counters when the model runs
there (or the exception the measurement raises). -/
structure MeasureEnv where
  cuda_available : Bool
  fvcore_available : Bool
  torch_total_flops : Device → Except PyExn Rat
  fvcore_totals : Device → Except PyExn (Rat × Rat)

/-- Device the model sits on after the `model.cuda()` move at the top of
`profile_model`. -/
def initDevice (env : MeasureEnv) : Device :=
  if env.cuda_available then Device.cuda else Device.cpu

/-- Embedding of `profile_torch`: `model.to('cpu')` is in place, so the
returned device is the model's device after the call; the measured total is
divided by the batch size. -/
def profile_torch (env : MeasureEnv) (batch_size : Nat) (dev : Device)
    (force_cpu : Bool) : Device × Except PyExn Rat :=
  let dev := if force_cpu then Device.cpu else dev
  (dev, (env.torch_total_flops dev).map fun t => t / (batch_size : Rat))

/-- Embedding of `profile_fvcore`: as `profile_torch`, but returning the
`(flops, activations)` pair, each divided by the batch size. -/
def profile_fvcore (env : MeasureEnv) (batch_size : Nat) (dev : Device)
    (force_cpu : Bool) : Device × Except PyExn (Rat × Rat) :=
  let dev := if force_cpu then Device.cpu else dev
  (dev,
    (env.fvcore_totals dev).map fun t =>
      (t.1 / (batch_size : Rat), t.2 / (batch_size : Rat)))

/-- Observable outcome of one `profile_model` call: the returned row or the
escaping exception, the measurement calls made (`force_cpu` flag and device
measured on, in order), and the exceptions printed by the `except
RuntimeError` handler. -/
structure ProfileOut where
  result : Except PyExn ResultsRow
  calls : List (Bool × Device)
  printed : List PyExn
  deriving Repr

/-- Embedding of the `while retries:` loop of `profile_model`.  Each pass
decrements `retries`, re-fills the parameter-count keys, and runs one
measurement with `force_cpu = not retries`; a `RuntimeError` is printed and
re-raised, any other exception propagates unprinted, and the device returned
by the measurement is threaded to the next pass (`.to` is in place). -/
def profileLoop (env : MeasureEnv) (pm : PModel) (batch_size : Nat)
    (profiler : String) (dev : Device) (results : ResultsRow) (retries : Nat)
    (calls : List (Bool × Device)) (printed : List PyExn) : ProfileOut :=
  match retries with
  | 0 => { result := Except.ok results, calls := calls, printed := printed }
  | r + 1 =>
    let force_cpu := r == 0
    let results :=
      { results with
        mparams := some (round2 ((count_params pm.parameters : Rat) / 1000000))
        image_mparams := some (round2 ((count_params pm.visual : Rat) / 1000000))
        text_mparams := some (round2 ((count_params pm.text : Rat) / 1000000)) }
    if profiler = "fvcore" then
      let p := profile_fvcore env batch_size dev force_cpu
      let calls := calls ++ [(force_cpu, p.1)]
      match p.2 with
      | Except.ok ma =>
        profileLoop env pm batch_size profiler p.1
          { results with
            gmacs := some (round2 (ma.1 / 1000000000))
            macts := some (round2 (ma.2 / 1000000)) }
          r calls printed
      | Except.error e =>
        match e with
        | PyExn.runtimeError s =>
          { result := Except.error (PyExn.runtimeError s), calls := calls,
            printed := printed ++ [PyExn.runtimeError s] }
        | e => { result := Except.error e, calls := calls, printed := printed }
    else if profiler = "torch" then
      let p := profile_torch env batch_size dev force_cpu
      let calls := calls ++ [(force_cpu, p.1)]
      match p.2 with
      | Except.ok total_flops =>
        profileLoop env pm batch_size profiler p.1
          { results with gflops := some (round2 (total_flops / 1000000000)) }
          r calls printed
      | Except.error e =>
        match e with
        | PyExn.runtimeError s =>
          { result := Except.error (PyExn.runtimeError s), calls := calls,
            printed := printed ++ [PyExn.runtimeError s] }
        | e => { result := Except.error e, calls := calls, printed := printed }
    else profileLoop env pm batch_size profiler dev results r calls printed

/-- Embedding of `profile_model`: the two leading asserts, the `model.cuda()`
move, the `model`/`image_size` keys, then the retry loop with `retries = 2`.
The `model.eval()` call, the `use_contrastive` toggle and the
`get_model_config` lookup touch no observed state and are elided. -/
def profile_model (env : MeasureEnv) (model_name : String) (pm : PModel)
    (batch_size : Nat) (profiler : String) (image_size : Nat)
    (_text_size : Nat) (_no_contrastive : Bool) : ProfileOut :=
  if ¬(profiler = "torch" ∨ profiler = "fvcore") then
    { result :=
        Except.error
          (PyExn.assertionError "Only torch and fvcore profilers are supported")
      calls := [], printed := [] }
  else if profiler = "fvcore" ∧ ¬env.fvcore_available then
    { result := Except.error (PyExn.assertionError "Please install fvcore.")
      calls := [], printed := [] }
  else
    let dev := initDevice env
    let row0 : ResultsRow :=
      { model := model_name, image_size := image_size, mparams := none,
        image_mparams := none, text_mparams := none, gmacs := none,
        macts := none, gflops := none }
    profileLoop env pm batch_size profiler dev row0 2 [] []

/-- Transcription of one `parser.add_argument` call. -/
inductive ArgKind where
  | strArg
  | intArg
  | storeTrue
  deriving DecidableEq, Repr

/-- One CLI option of the profiler script: flag, value kind, default, and the
`choices` restriction when present. -/
structure ArgSpec where
  flag : String
  kind : ArgKind
  strDefault : Option String
  natDefault : Option Nat
  boolDefault : Option Bool
  choices : Option (List String)
  deriving DecidableEq, Repr

/-- The argument table of `profiler_simple.py`, one entry per
`parser.add_argument` call, in source order. -/
def profilerArgSpecs : List ArgSpec :=
  [ { flag := "--model", kind := ArgKind.strArg, strDefault := some "",
      natDefault := none, boolDefault := none, choices := none },
    { flag := "--results-file", kind := ArgKind.strArg, strDefault := some "",
      natDefault := none, boolDefault := none, choices := none },
    { flag := "--profiler", kind := ArgKind.strArg, strDefault := some "torch",
      natDefault := none, boolDefault := none,
      choices := some ["torch", "fvcore"] },
    { flag := "--batch-size", kind := ArgKind.intArg, strDefault := none,
      natDefault := some 1, boolDefault := none, choices := none },
    { flag := "--image-size", kind := ArgKind.intArg, strDefault := none,
      natDefault := some 224, boolDefault := none, choices := none },
    { flag := "--text-size", kind := ArgKind.intArg, strDefault := none,
      natDefault := some 77, boolDefault := none, choices := none },
    { flag := "--no-contrastive", kind := ArgKind.storeTrue,
      strDefault := none, natDefault := none, boolDefault := some false,
      choices := none } ]

/-- The parsed command-line arguments of the profiler script. -/
structure Args where
  model : String
  results_file : String
  profiler : String
  batch_size : Nat
  image_size : Nat
  text_size : Nat
  no_contrastive : Bool
  deriving DecidableEq, Repr

/-- Environment of one run of `main`: the model registry
(`open_clip.list_models()`) and the outcome of `profile_model` on each model
name. -/
structure MainEnv where
  all_models : List String
  profile : String → Except PyExn ResultsRow

/-- The model list `main` iterates over: the whole registry for `all`,
otherwise the comma-split `--model` value. -/
def parsedModels (args : Args) (env : MainEnv) : List String :=
  if args.model = "all" then env.all_models else args.model.splitOn ","

/-- The profiling loop of `main`: successful rows accumulate into `results`,
failing model names into `models_with_errors` (their tracebacks are printed by
the handler), in input order. -/
def mainLoop (env : MainEnv) :
    List String → List ResultsRow → List String → List ResultsRow × List String
  | [], results, errs => (results, errs)
  | m :: rest, results, errs =>
    match env.profile m with
    | Except.ok row => mainLoop env rest (results ++ [row]) errs
    | Except.error _ => mainLoop env rest results (errs ++ [m])

/-- The `sort_values` ordering of the final table: by the chosen FLOP column,
then `mparams`, then `model`, ascending. -/
def rowLe (byGmacs : Bool) (a b : ResultsRow) : Bool :=
  let ka : Rat := if byGmacs then (a.gmacs).getD 0 else (a.gflops).getD 0
  let kb : Rat := if byGmacs then (b.gmacs).getD 0 else (b.gflops).getD 0
  if ka ≠ kb then decide (ka < kb)
  else if (a.mparams).getD 0 ≠ (b.mparams).getD 0 then
    decide ((a.mparams).getD 0 < (b.mparams).getD 0)
  else decide (a.model ≤ b.model)

/-- Observable outcome of one run of `main`: which tracebacks were printed,
the collected error names, the accumulated rows, the sorted table, the CSV
write (path and content) if any, the printed error list if any, and the
exception that escaped `main` if any. -/
structure MainOut where
  tracebacks : List String
  models_with_errors : List String
  rows : List ResultsRow
  df : List ResultsRow
  csv_written : Option (String × List ResultsRow)
  printed_error_list : Option (List String)
  crashed : Option PyExn

/-- Embedding of `main` (the name itself is reserved by Lean for the
executable entry point).  After the loop, `pd.DataFrame(results,
columns=results[0].keys())` indexes `results[0]`, so an empty `results` list
raises `IndexError` there, before the CSV write and before the error-list
print; `gmacs` is a column exactly when the first row carries it. -/
def profilerMain (args : Args) (env : MainEnv) : MainOut :=
  let parsed_model := parsedModels args env
  let p := mainLoop env parsed_model [] []
  let results := p.1
  let models_with_errors := p.2
  match results with
  | [] =>
    { tracebacks := models_with_errors, models_with_errors := models_with_errors,
      rows := results, df := [], csv_written := none,
      printed_error_list := none, crashed := some PyExn.indexError }
  | r0 :: _ =>
    let df := results.mergeSort (rowLe (r0.gmacs).isSome)
    let csv :=
      if args.results_file ≠ "" then some (args.results_file, df) else none
    let pel :=
      if models_with_errors ≠ [] then some models_with_errors else none
    { tracebacks := models_with_errors, models_with_errors := models_with_errors,
      rows := results, df := df, csv_written := csv,
      printed_error_list := pel, crashed := none }

/-- A concrete decoder config with an HF model name set, used to exercise the
`hf_model_name` branch of `MaMMUT.__init__`. -/
def cfgHF : MultimodalCfg :=
  { context_length := 77, width := 8, heads := 1, layers := 1,
    ls_init_value := none, cross_attn_ratio := 1, does_full_decoding := false,
    output_tokens := false, has_mlp := true, vocab_size := 100,
    hf_model_name := some "roberta-base" }

/-- A concrete decoder config without an HF model name. -/
def cfgPlain : MultimodalCfg :=
  { cfgHF with hf_model_name := none }

/-- A concrete vision config. -/
def visCfg0 : CLIPVisionCfg := { width := 16, image_size := 224 }

/-- A concrete `MaMMUT` instance for evaluating the forward pass. -/
def mFix : MaMMUT :=
  { text := _build_multimodal_decoder_tower 100 cfgPlain false none
    visual := _build_vision_tower 64 visCfg0 false none
    context_length := 77
    map_viz2txt_kv := Tensor.param "map_viz2txt_kv"
    logit_scale := Tensor.param "logit_scale"
    logit_bias := none
    pad_id := 0
    use_contrastive := true
    requires_grad := fun _ => true }

/-- A concrete profiled model: visual, text and remaining parameters. -/
def pmFix : PModel :=
  { visual := [{ numel := 1000000 }]
    text := [{ numel := 2000000 }]
    rest := [{ numel := 500000 }] }

/-- A measurement environment in which every FLOP count succeeds. -/
def envT : MeasureEnv :=
  { cuda_available := true, fvcore_available := false
    torch_total_flops := fun _ => Except.ok 4000000000
    fvcore_totals := fun _ => Except.error (PyExn.assertionError "unused") }

/-- A measurement environment whose first (GPU) measurement raises
`RuntimeError`. -/
def envFailT : MeasureEnv :=
  { cuda_available := true, fvcore_available := false
    torch_total_flops := fun _ => Except.error (PyExn.runtimeError "oom")
    fvcore_totals := fun _ => Except.error (PyExn.assertionError "unused") }

/-- A measurement environment that succeeds on the GPU pass and raises
`RuntimeError` on the CPU pass. -/
def envFailCpu : MeasureEnv :=
  { cuda_available := true, fvcore_available := false
    torch_total_flops := fun d =>
      if d = Device.cpu then Except.error (PyExn.runtimeError "oom2")
      else Except.ok 4000000000
    fvcore_totals := fun _ => Except.error (PyExn.assertionError "unused") }

/-- The row `profile_model` returns on `pmFix` under `envT`. -/
def rowFix : ResultsRow :=
  { model := "ViT", image_size := 224, mparams := some (7 / 2),
    image_mparams := some 1, text_mparams := some 2, gmacs := none,
    macts := none, gflops := some 4 }

/-- CLI arguments for a run over the whole registry writing a CSV. -/
def argsW : Args :=
  { model := "all", results_file := "out.csv", profiler := "torch",
    batch_size := 1, image_size := 224, text_size := 77,
    no_contrastive := false }

/-- A `main` environment with one registered model that profiles
successfully. -/
def envW : MainEnv :=
  { all_models := ["ViT"], profile := fun _ => Except.ok rowFix }

/-- CLI arguments for a run over the single registered model. -/
def argsCex : Args :=
  { model := "all", results_file := "out.csv", profiler := "torch",
    batch_size := 1, image_size := 224, text_size := 77,
    no_contrastive := false }

/-- A `main` environment whose single registered model fails to profile. -/
def envCex : MainEnv :=
  { all_models := ["m1"],
    profile := fun _ => Except.error (PyExn.runtimeError "boom") }

/-- A `main` environment with one succeeding and one failing model. -/
def envMix : MainEnv :=
  { all_models := ["bad", "ViT"],
    profile := fun m =>
      if m = "ViT" then Except.ok rowFix
      else Except.error (PyExn.runtimeError "boom") }

theorem lookupKey_setKey_same (d : Out) (k : String) (v : Tensor) :
    lookupKey (setKey d k v) k = some v := by
  induction d with
  | nil => simp [setKey, lookupKey]
  | cons hd tl ih =>
    rcases hd with ⟨a, b⟩
    by_cases h : a = k
    · subst h
      simp [setKey, lookupKey]
    · simp [setKey, lookupKey, h, ih]

theorem lookupKey_setKey_ne (d : Out) (k k' : String) (v : Tensor)
    (h : k' ≠ k) : lookupKey (setKey d k v) k' = lookupKey d k' := by
  have h' : ¬(k = k') := fun hh => h hh.symm
  induction d with
  | nil => simp [setKey, lookupKey, h']
  | cons hd tl ih =>
    rcases hd with ⟨a, b⟩
    by_cases h2 : a = k
    · subst h2
      simp [setKey, lookupKey, h']
    · simp [setKey, lookupKey, h2, ih]

/-- C1: with `normalize=True` and `output_logits=False`, `encode_text` returns
the token-dimension mean of the decoder's text latent, L2-normalised along the
last dimension; with `normalize=False` it returns the mean-pooled latent
unnormalised. -/
theorem encode_text_mean_pool_normalize (m : MaMMUT) (text image_embs : Tensor) :
    m.encode_text text image_embs true false
      = Tensor.l2normalize (Tensor.mean1 (Tensor.textLatent text image_embs)) ∧
    m.encode_text text image_embs false false
      = Tensor.mean1 (Tensor.textLatent text image_embs) :=
  ⟨rfl, rfl⟩

/-- C5: with `normalize=True`, `encode_image` returns the vision tower's
pooled output L2-normalised along the last dimension; with `normalize=False`
it returns the pooled output unnormalised. -/
theorem encode_image_pooled_normalize (m : MaMMUT) (image : Tensor) :
    m.encode_image image true = Tensor.l2normalize (Tensor.visualPooled image) ∧
    m.encode_image image false = Tensor.visualPooled image :=
  ⟨rfl, rfl⟩

/-- C4: `_use_contrastive(False)` stores `use_contrastive = False` and clears
`requires_grad` on exactly the six contrastive-head parameters, leaving every
other parameter's flag unchanged; `_use_contrastive(True)` stores
`use_contrastive = True` and changes no flag. -/
theorem use_contrastive_grad_toggle (m : MaMMUT) :
    (m._use_contrastive false).use_contrastive = false ∧
    (∀ p : ParamName,
      (m._use_contrastive false).requires_grad p =
        if p = ParamName.textLnFinalWeight ∨ p = ParamName.textLnFinalBias ∨
            p = ParamName.visualProj ∨ p = ParamName.visualLnPostWeight ∨
            p = ParamName.visualLnPostBias ∨ p = ParamName.logitScale then
          false
        else m.requires_grad p) ∧
    (m._use_contrastive true).use_contrastive = true ∧
    (∀ p : ParamName, (m._use_contrastive true).requires_grad p = m.requires_grad p) := by
  refine ⟨rfl, ?_, rfl, fun p => rfl⟩
  intro p
  cases p <;> simp [MaMMUT._use_contrastive, MaMMUT.setGrad]

/-- C3: in the generative branch of `_forward`, the `labels` entry is the
input text with its first token column dropped; with `is_training` true the
decoder receives the text with its last column dropped, and with
`is_training` false it receives the full text unchanged. -/
theorem generative_forward_labels_and_shift (m : MaMMUT) (text : Tensor)
    (out : Out) (image_embs : Tensor) :
    (∀ is_training : Bool,
      lookupKey (m._forward text out image_embs false is_training) "labels"
        = some (Tensor.dropFirstCol text)) ∧
    lookupKey (m._forward text out image_embs false true) "logits"
      = some (Tensor.tokenLogits (Tensor.dropLastCol text)
          (if image_embs.isNone then image_embs
           else Tensor.matmul image_embs m.map_viz2txt_kv)) ∧
    lookupKey (m._forward text out image_embs false false) "logits"
      = some (Tensor.tokenLogits text
          (if image_embs.isNone then image_embs
           else Tensor.matmul image_embs m.map_viz2txt_kv)) := by
  refine ⟨fun is_training => ?_, ?_, ?_⟩ <;>
    simp [MaMMUT._forward, MaMMUT.encode_text, MaMMUT._encode_text,
      lookupKey_setKey_same, lookupKey_setKey_ne] <;>
    cases h : image_embs.isNone <;> simp [h]

/-- C9: constructing `MaMMUT` with a `text_cfg` whose `hf_model_name` is not
`None` raises `AttributeError`: `__init__` evaluates
`self.text.config.vocab_size` before the `self.text` attribute has been
assigned. -/
theorem hf_text_cfg_raises_attribute_error (embed_dim : Nat)
    (text_cfg : MultimodalCfg) (vision_cfg : CLIPVisionCfg) (quick_gelu : Bool)
    (cast_dtype : Option DType) (pad_id : Nat) (init_logit_bias : Option Rat)
    (nls : Bool) (h : (text_cfg.hf_model_name).isSome = true) :
    MaMMUT.init embed_dim text_cfg vision_cfg quick_gelu cast_dtype pad_id
        init_logit_bias nls
      = Except.error (PyExn.attributeError "text") := by
  unfold MaMMUT.init
  simp [h, Bind.bind, Except.bind]

/-- Witness for C9 at a concrete HF-style config. -/
theorem hf_text_cfg_raises_attribute_error_witness :
    (cfgHF.hf_model_name).isSome = true ∧
    MaMMUT.init 64 cfgHF visCfg0 false none 0 none false
      = Except.error (PyExn.attributeError "text") :=
  ⟨rfl, hf_text_cfg_raises_attribute_error 64 cfgHF visCfg0 false none 0 none
    false rfl⟩


/-- C8: every `forward` output carries `logit_scale = exp(self.logit_scale)`;
with `text=None` the dict has exactly the keys `logit_scale` and
`image_features` and no generative outputs; with a text tensor it additionally
has `text_features`, `labels` and `logits`, and `text_features` is a tensor
rather than `None` exactly when `is_training` and `use_contrastive` are both
true. -/
theorem forward_output_dict (m : MaMMUT)
    (image text image_latent image_embs : Tensor) (is_training : Bool) :
    lookupKey (m.forward image text image_latent image_embs is_training)
        "logit_scale" = some (Tensor.exp m.logit_scale) ∧
    (text.isNone = true →
      keysOf (m.forward image text image_latent image_embs is_training)
        = ["logit_scale", "image_features"]) ∧
    (text.isNone = false →
      keysOf (m.forward image text image_latent image_embs is_training)
        = ["logit_scale", "image_features", "text_features", "labels",
            "logits"] ∧
      ∃ v, lookupKey (m.forward image text image_latent image_embs is_training)
            "text_features" = some v ∧
          ((v ≠ Tensor.pynone) ↔ (is_training && m.use_contrastive) = true)) := by
  refine ⟨?_, fun htext => ?_, fun htext => ?_⟩
  · cases h1 : (image_latent.isNone || image_embs.isNone) && !image.isNone <;>
      cases htext : text.isNone <;>
      cases htr : is_training && m.use_contrastive <;>
      simp [MaMMUT.forward, MaMMUT._forward, MaMMUT.encode_text,
        MaMMUT._encode_text, MaMMUT._encode_image, setKey, lookupKey, h1,
        htext, htr]
  · cases h1 : (image_latent.isNone || image_embs.isNone) && !image.isNone <;>
      simp [MaMMUT.forward, MaMMUT._encode_image, keysOf, setKey, h1, htext]
  · cases h1 : (image_latent.isNone || image_embs.isNone) && !image.isNone <;>
      cases htr : is_training && m.use_contrastive <;>
      simp [MaMMUT.forward, MaMMUT._forward, MaMMUT.encode_text,
        MaMMUT._encode_text, MaMMUT._encode_image, setKey, lookupKey, keysOf,
        h1, htext, htr]

/-- Witness for C8: both hypotheses discharged on a concrete model, once with
`text=None` and once with a text tensor. -/
theorem forward_output_dict_witness :
    keysOf (mFix.forward (Tensor.input 0) Tensor.pynone Tensor.pynone
        Tensor.pynone true)
      = ["logit_scale", "image_features"] ∧
    keysOf (mFix.forward (Tensor.input 0) (Tensor.input 1) Tensor.pynone
        Tensor.pynone true)
      = ["logit_scale", "image_features", "text_features", "labels",
          "logits"] :=
  ⟨(forward_output_dict mFix (Tensor.input 0) Tensor.pynone Tensor.pynone
      Tensor.pynone true).2.1 rfl,
    ((forward_output_dict mFix (Tensor.input 0) (Tensor.input 1) Tensor.pynone
      Tensor.pynone true).2.2 rfl).1⟩

theorem mainLoop_spec (env : MainEnv) (ms : List String)
    (acc : List ResultsRow) (errs : List String) :
    mainLoop env ms acc errs
      = (acc ++ ms.filterMap (fun m => (env.profile m).toOption),
          errs ++ ms.filter (fun m => !(env.profile m).isOk)) := by
  induction ms generalizing acc errs with
  | nil => simp [mainLoop]
  | cons m rest ih =>
    cases hp : env.profile m with
    | ok row =>
      simp [mainLoop, hp, ih, Except.toOption, Except.isOk, Except.toBool,
        List.filter_cons]
    | error e =>
      simp [mainLoop, hp, ih, Except.toOption, Except.isOk, Except.toBool,
        List.filter_cons]

theorem profilerMain_nil (args : Args) (env : MainEnv)
    (hres : (parsedModels args env).filterMap
        (fun m => (env.profile m).toOption) = []) :
    profilerMain args env
      = { tracebacks :=
            (parsedModels args env).filter (fun m => !(env.profile m).isOk)
          models_with_errors :=
            (parsedModels args env).filter (fun m => !(env.profile m).isOk)
          rows := [], df := [], csv_written := none,
          printed_error_list := none, crashed := some PyExn.indexError } := by
  simp only [profilerMain, mainLoop_spec, List.nil_append]
  rw [hres]

theorem profilerMain_cons (args : Args) (env : MainEnv) (r0 : ResultsRow)
    (rest : List ResultsRow)
    (hres : (parsedModels args env).filterMap
        (fun m => (env.profile m).toOption) = r0 :: rest) :
    profilerMain args env
      = { tracebacks :=
            (parsedModels args env).filter (fun m => !(env.profile m).isOk)
          models_with_errors :=
            (parsedModels args env).filter (fun m => !(env.profile m).isOk)
          rows := r0 :: rest
          df := (r0 :: rest).mergeSort (rowLe (r0.gmacs).isSome)
          csv_written :=
            if args.results_file ≠ "" then
              some (args.results_file,
                (r0 :: rest).mergeSort (rowLe (r0.gmacs).isSome))
            else none
          printed_error_list :=
            if (parsedModels args env).filter (fun m => !(env.profile m).isOk)
                ≠ [] then
              some ((parsedModels args env).filter
                (fun m => !(env.profile m).isOk))
            else none
          crashed := none } := by
  simp only [profilerMain, mainLoop_spec, List.nil_append]
  rw [hres]

/-- C2 (amended): per-model exceptions are caught, the traceback printed, the
failing model contributes no row while later models are still profiled, and
the failing names are collected and printed at the end — provided at least one
model profiles successfully; when every model fails, `main` instead raises
`IndexError` while building the results table (see the counterexample). -/
theorem profiler_main_error_handling (args : Args) (env : MainEnv)
    (h : ∃ m ∈ parsedModels args env, (env.profile m).isOk = true) :
    (profilerMain args env).crashed = none ∧
    (profilerMain args env).tracebacks
      = (parsedModels args env).filter (fun m => !(env.profile m).isOk) ∧
    (profilerMain args env).models_with_errors
      = (parsedModels args env).filter (fun m => !(env.profile m).isOk) ∧
    ((profilerMain args env).df).Perm
      ((parsedModels args env).filterMap (fun m => (env.profile m).toOption)) ∧
    (profilerMain args env).printed_error_list
      = (if (parsedModels args env).filter (fun m => !(env.profile m).isOk)
            = [] then none
          else some ((parsedModels args env).filter
            (fun m => !(env.profile m).isOk))) := by
  have hne : (parsedModels args env).filterMap
      (fun m => (env.profile m).toOption) ≠ [] := by
    obtain ⟨m, hm, hok⟩ := h
    intro hnil
    rw [List.filterMap_eq_nil_iff] at hnil
    have h2 := hnil m hm
    cases hp : env.profile m with
    | ok r => rw [hp] at h2; simp [Except.toOption] at h2
    | error e => rw [hp] at hok; simp [Except.isOk, Except.toBool] at hok
  cases hres : (parsedModels args env).filterMap
      (fun m => (env.profile m).toOption) with
  | nil => exact absurd hres hne
  | cons r0 rest =>
    rw [profilerMain_cons args env r0 rest hres]
    refine ⟨rfl, rfl, rfl, ?_, ?_⟩
    · rw [← hres]
      exact List.mergeSort_perm _ _
    · by_cases hf : (parsedModels args env).filter
          (fun m => !(env.profile m).isOk) = []
      · simp [hf]
      · simp [hf]

/-- Counterexample for C2 as frozen: when every model fails (here the single
registered model), the failing name is collected but `main` crashes with
`IndexError` before the error list is printed. -/
theorem profiler_main_error_handling_counterexample :
    (profilerMain argsCex envCex).models_with_errors = ["m1"] ∧
    (profilerMain argsCex envCex).printed_error_list = none ∧
    (profilerMain argsCex envCex).crashed = some PyExn.indexError :=
  ⟨rfl, rfl, rfl⟩

/-- Witness for C2 (amended) on a run with one failing and one succeeding
model: no crash, the failing model is reported, and the error list is
printed. -/
theorem profiler_main_error_handling_witness :
    (profilerMain argsCex envMix).crashed = none ∧
    (profilerMain argsCex envMix).models_with_errors = ["bad"] ∧
    (profilerMain argsCex envMix).printed_error_list = some ["bad"] := by
  have h := profiler_main_error_handling argsCex envMix
    ⟨"ViT", by decide, by decide⟩
  refine ⟨h.1, ?_, ?_⟩
  · rw [h.2.2.1]; decide
  · rw [h.2.2.2.2]; decide

/-- C6: the CLI defines exactly the transcribed options, the profiler choice
is restricted to `torch` and `fvcore`, and on a run that completes, the
results table is written as CSV to the given path exactly when the
results-file argument is a non-empty string. -/
theorem profiler_cli_args_and_csv (args : Args) (env : MainEnv)
    (h : (profilerMain args env).crashed = none) :
    profilerArgSpecs.map ArgSpec.flag
      = ["--model", "--results-file", "--profiler", "--batch-size",
          "--image-size", "--text-size", "--no-contrastive"] ∧
    (profilerArgSpecs.find? (fun s => s.flag = "--profiler")).map
        ArgSpec.choices
      = some (some ["torch", "fvcore"]) ∧
    ((profilerMain args env).csv_written
        = some (args.results_file, (profilerMain args env).df)
      ↔ args.results_file ≠ "") := by
  refine ⟨by decide, by decide, ?_⟩
  cases hres : (parsedModels args env).filterMap
      (fun m => (env.profile m).toOption) with
  | nil =>
    rw [profilerMain_nil args env hres] at h
    simp at h
  | cons r0 rest =>
    rw [profilerMain_cons args env r0 rest hres]
    by_cases hrf : args.results_file = ""
    · simp [hrf]
    · simp [hrf]

/-- Witness for C6 on a completing run with a non-empty results file: the CSV
is written at that path with the table content. -/
theorem profiler_cli_args_and_csv_witness :
    (profilerMain argsW envW).crashed = none ∧
    (profilerMain argsW envW).csv_written
      = some ("out.csv", (profilerMain argsW envW).df) :=
  ⟨rfl, (profiler_cli_args_and_csv argsW envW rfl).2.2.mpr (by decide)⟩

theorem profileLoop_ok_aux (env : MeasureEnv) (pm : PModel) (bs : Nat)
    (prof : String) :
    ∀ (r : Nat) (dev : Device) (results : ResultsRow)
      (cs : List (Bool × Device)) (ps : List PyExn) (row : ResultsRow),
      (profileLoop env pm bs prof dev results r cs ps).result = Except.ok row →
      row = results ∨
        (row.mparams
            = some (round2 ((count_params pm.parameters : Rat) / 1000000)) ∧
          row.image_mparams
            = some (round2 ((count_params pm.visual : Rat) / 1000000)) ∧
          row.text_mparams
            = some (round2 ((count_params pm.text : Rat) / 1000000))) := by
  intro r
  induction r with
  | zero =>
    intro dev results cs ps row h
    simp only [profileLoop] at h
    exact Or.inl (Except.ok.inj h).symm
  | succ n ih =>
    intro dev results cs ps row h
    simp only [profileLoop] at h
    split at h
    · split at h
      · rcases ih _ _ _ _ _ h with h1 | h1
        · exact Or.inr (by rw [h1]; exact ⟨rfl, rfl, rfl⟩)
        · exact Or.inr h1
      · split at h <;> simp at h
    · split at h
      · split at h
        · rcases ih _ _ _ _ _ h with h1 | h1
          · exact Or.inr (by rw [h1]; exact ⟨rfl, rfl, rfl⟩)
          · exact Or.inr h1
        · split at h <;> simp at h
      · rcases ih _ _ _ _ _ h with h1 | h1
        · exact Or.inr (by rw [h1]; exact ⟨rfl, rfl, rfl⟩)
        · exact Or.inr h1

theorem profileLoop_succ_ok_params (env : MeasureEnv) (pm : PModel) (bs : Nat)
    (prof : String) (n : Nat) (dev : Device) (results : ResultsRow)
    (cs : List (Bool × Device)) (ps : List PyExn) (row : ResultsRow)
    (h : (profileLoop env pm bs prof dev results (n + 1) cs ps).result
        = Except.ok row) :
    row.mparams = some (round2 ((count_params pm.parameters : Rat) / 1000000)) ∧
    row.image_mparams
      = some (round2 ((count_params pm.visual : Rat) / 1000000)) ∧
    row.text_mparams
      = some (round2 ((count_params pm.text : Rat) / 1000000)) := by
  simp only [profileLoop] at h
  split at h
  · split at h
    · rcases profileLoop_ok_aux env pm bs prof _ _ _ _ _ _ h with h1 | h1
      · rw [h1]; exact ⟨rfl, rfl, rfl⟩
      · exact h1
    · split at h <;> simp at h
  · split at h
    · split at h
      · rcases profileLoop_ok_aux env pm bs prof _ _ _ _ _ _ h with h1 | h1
        · rw [h1]; exact ⟨rfl, rfl, rfl⟩
        · exact h1
      · split at h <;> simp at h
    · rcases profileLoop_ok_aux env pm bs prof _ _ _ _ _ _ h with h1 | h1
      · rw [h1]; exact ⟨rfl, rfl, rfl⟩
      · exact h1

/-- C7: a successfully profiled model reports `mparams` as the summed element
count of all its parameters divided by one million and rounded to two decimal
places, and `image_mparams` / `text_mparams` the same way over the `visual`
and `text` submodules. -/
theorem reported_param_counts (env : MeasureEnv) (name : String) (pm : PModel)
    (bs : Nat) (prof : String) (isz tsz : Nat) (nc : Bool) (row : ResultsRow)
    (h : (profile_model env name pm bs prof isz tsz nc).result
        = Except.ok row) :
    row.mparams = some (round2 ((count_params pm.parameters : Rat) / 1000000)) ∧
    row.image_mparams
      = some (round2 ((count_params pm.visual : Rat) / 1000000)) ∧
    row.text_mparams
      = some (round2 ((count_params pm.text : Rat) / 1000000)) := by
  simp only [profile_model] at h
  split at h
  · simp at h
  · split at h
    · simp at h
    · exact profileLoop_succ_ok_params env pm bs prof 1 _ _ _ _ row h

/-- Witness for C7 on a concrete model and environment. -/
theorem reported_param_counts_witness :
    (profile_model envT "ViT" pmFix 1 "torch" 224 77 false).result
        = Except.ok rowFix ∧
    rowFix.mparams
        = some (round2 ((count_params pmFix.parameters : Rat) / 1000000)) ∧
    rowFix.image_mparams
        = some (round2 ((count_params pmFix.visual : Rat) / 1000000)) ∧
    rowFix.text_mparams
        = some (round2 ((count_params pmFix.text : Rat) / 1000000)) := by
  have h : (profile_model envT "ViT" pmFix 1 "torch" 224 77 false).result
      = Except.ok rowFix := by
    simp [profile_model, profileLoop, profile_torch, initDevice, envT, pmFix,
      rowFix, count_params, PModel.parameters, Except.map,
      ResultsRow.mk.injEq]
    norm_num [round2, roundHalfEven]
  exact ⟨h, reported_param_counts envT "ViT" pmFix 1 "torch" 224 77 false
    rowFix h⟩

/-- C10: when no exception is raised the measurement block runs twice, the
second pass with `force_cpu=True` on the CPU, and the returned row holds the
second pass's values; a `RuntimeError` in either pass is printed and
immediately re-raised, so a failed pass is never retried. -/
theorem profile_measure_twice_no_retry (env : MeasureEnv) (name : String)
    (pm : PModel) (bs isz tsz : Nat) (nc : Bool) :
    (∀ f0 f1 : Rat,
      env.torch_total_flops (initDevice env) = Except.ok f0 →
      env.torch_total_flops Device.cpu = Except.ok f1 →
      (profile_model env name pm bs "torch" isz tsz nc).calls
          = [(false, initDevice env), (true, Device.cpu)] ∧
      (profile_model env name pm bs "torch" isz tsz nc).printed = [] ∧
      ∃ row : ResultsRow,
        (profile_model env name pm bs "torch" isz tsz nc).result
            = Except.ok row ∧
        row.gflops = some (round2 (f1 / (bs : Rat) / 1000000000))) ∧
    (∀ s : String,
      env.torch_total_flops (initDevice env)
          = Except.error (PyExn.runtimeError s) →
      (profile_model env name pm bs "torch" isz tsz nc).result
          = Except.error (PyExn.runtimeError s) ∧
      (profile_model env name pm bs "torch" isz tsz nc).calls
          = [(false, initDevice env)] ∧
      (profile_model env name pm bs "torch" isz tsz nc).printed
          = [PyExn.runtimeError s]) ∧
    (∀ (f0 : Rat) (s : String),
      env.torch_total_flops (initDevice env) = Except.ok f0 →
      env.torch_total_flops Device.cpu = Except.error (PyExn.runtimeError s) →
      (profile_model env name pm bs "torch" isz tsz nc).result
          = Except.error (PyExn.runtimeError s) ∧
      (profile_model env name pm bs "torch" isz tsz nc).calls
          = [(false, initDevice env), (true, Device.cpu)] ∧
      (profile_model env name pm bs "torch" isz tsz nc).printed
          = [PyExn.runtimeError s]) := by
  refine ⟨fun f0 f1 h0 h1 => ?_, fun s h0 => ?_, fun f0 s h0 h1 => ?_⟩
  · simp [profile_model, profileLoop, profile_torch, h0, h1, Except.map]
  · simp [profile_model, profileLoop, profile_torch, h0, Except.map]
  · simp [profile_model, profileLoop, profile_torch, h0, h1, Except.map]

/-- Witness for C10: both passes run on a succeeding environment, and each of
the two failure points stops the loop without a retry. -/
theorem profile_measure_twice_no_retry_witness :
    (profile_model envT "m" pmFix 1 "torch" 224 77 false).calls
        = [(false, initDevice envT), (true, Device.cpu)] ∧
    (profile_model envFailT "m" pmFix 1 "torch" 224 77 false).calls
        = [(false, initDevice envFailT)] ∧
    (profile_model envFailCpu "m" pmFix 1 "torch" 224 77 false).printed
        = [PyExn.runtimeError "oom2"] :=
  ⟨((profile_measure_twice_no_retry envT "m" pmFix 1 224 77 false).1
      4000000000 4000000000 rfl rfl).1,
    ((profile_measure_twice_no_retry envFailT "m" pmFix 1 224 77 false).2.1
      "oom" rfl).2.1,
    ((profile_measure_twice_no_retry envFailCpu "m" pmFix 1 224 77 false).2.2
      4000000000 "oom2" rfl rfl).2.2⟩
